import Mathlib

/-!
Shallow embedding of the cosmos-auth-package repository
(`src/cosmos_auth_package/schemas.py`, `user_verifier.py`,
`auth_decorators.py`) and proofs of the claims about it.

Python `Optional[str]` values are modelled as `Option String`; Python
truthiness of such a value (`if x:` / `x or y`) is `pyTruthy`: an
optional string is falsy exactly when it is `None` or the empty string.
The Azure Cosmos container is modelled as `CosmosContainer`: a list of
stored documents keyed by (document id, partition-key value), plus two
lists of keys at which the external store raises a failure other than
its distinguishable not-found signal (one for point reads, one for
patches).  Reads and queries leave the container unchanged; upsert and
patch return the updated container.
-/

deriving instance DecidableEq for Except

namespace CosmosAuth

/-- Python truthiness of an `Optional[str]`: falsy iff `None` or `""`. -/
def pyTruthy : Option String → Bool
  | none => false
  | some s => !(s == "")

/-- Python `a or b` on two `Optional[str]` values. -/
def pyOr (a b : Option String) : Option String :=
  if pyTruthy a then a else b

/-- Python `x or d` where `x : Optional[str]` and `d : str` (result is a `str`). -/
def strOrElse (x : Option String) (d : String) : String :=
  match x with
  | none => d
  | some s => if s = "" then d else s

/-- Whether the first character list starts with the second. -/
def charsStartWith : List Char → List Char → Bool
  | _, [] => true
  | [], _ :: _ => false
  | c :: cs, p :: ps => (c = p) && charsStartWith cs ps

/-- Python `s.startswith(pre)`. -/
def pyStartsWith (s pre : String) : Bool :=
  charsStartWith s.data pre.data

/-- Python `s[n:]`: the string without its first `n` characters. -/
def pyDrop (n : Nat) (s : String) : String :=
  String.mk (s.data.drop n)

/-- The characters before the first `'@'` (all of them when none occurs). -/
def charsBeforeAt : List Char → List Char
  | [] => []
  | c :: cs => if c = '@' then [] else c :: charsBeforeAt cs

/-- Python `email.split("@")[0]`: the part before the first `@`
(the whole string when there is no `@`; `""` for `""`). -/
def localPart (email : String) : String :=
  String.mk (charsBeforeAt email.data)

/-- `UserRole(str, Enum)` from `schemas.py`. -/
inductive UserRole where
  | user
  | admin
  | moderator
  | viewer
deriving DecidableEq, Repr

/-- The string value of each `UserRole` member. -/
def UserRole.value : UserRole → String
  | .user => "user"
  | .admin => "admin"
  | .moderator => "moderator"
  | .viewer => "viewer"

/-- The in-memory `User` object of `schemas.py` after `__init__` has run:
every attribute the constructor assigns. -/
structure User where
  id : String
  type : String
  user_id : String
  email : String
  username : String
  role : String
  display_name : String
  is_active : Bool
  agents : List String
  created_at : Option String
  updated_at : Option String
deriving DecidableEq, Repr

/-- `User.__init__(user_id, email, username=None, role=None,
display_name=None, is_active=True, **kwargs)` from `schemas.py`,
with the `agents` / `created_at` / `updated_at` kwargs explicit.
`username or email.split("@")[0]`, `role or UserRole.USER.value` and
`display_name or username or email` are Python `or` on optional strings. -/
def User.init (user_id email : String)
    (username role display_name : Option String)
    (is_active : Bool) (agents : List String)
    (created_at updated_at : Option String) : User :=
  { id := "user_" ++ user_id
    type := "user"
    user_id := user_id
    email := email
    username := strOrElse username (localPart email)
    role := strOrElse role UserRole.user.value
    display_name := strOrElse display_name (strOrElse username email)
    is_active := is_active
    agents := agents
    created_at := created_at
    updated_at := updated_at }

/-- A stored Cosmos document with the shape `User.to_dict` writes.
Every field is optional: a document read back from the store may lack
keys, and `from_dict` defaults each missing one. -/
structure UserDoc where
  id : Option String
  type : Option String
  user_id : Option String
  email : Option String
  username : Option String
  role : Option String
  display_name : Option String
  is_active : Option Bool
  agents : Option (List String)
  created_at : Option String
  updated_at : Option String
deriving DecidableEq, Repr

/-- `User.to_dict` from `schemas.py`: the flat record written to Cosmos. -/
def User.to_dict (u : User) : UserDoc :=
  { id := some u.id
    type := some u.type
    user_id := some u.user_id
    email := some u.email
    username := some u.username
    role := some u.role
    display_name := some u.display_name
    is_active := some u.is_active
    agents := some u.agents
    created_at := u.created_at
    updated_at := u.updated_at }

/-- `User.from_dict` from `schemas.py`: rebuilds a `User` from a stored
document, defaulting `user_id`/`email` to `""`, `is_active` to `True`,
`agents` to `[]`, and passing the optional strings through to the
constructor's own defaulting. -/
def User.from_dict (d : UserDoc) : User :=
  User.init (d.user_id.getD "") (d.email.getD "")
    d.username d.role d.display_name
    (d.is_active.getD true) (d.agents.getD [])
    d.created_at d.updated_at

/-! ## The Cosmos container model -/

/-- A single member of the `patch_operations` list passed to
`patch_item` (a dict with keys `op`, `path`, `value`). -/
structure PatchOp where
  op : String
  path : String
  value : String
deriving DecidableEq, Repr

/-- Application of one `set` patch operation to a stored document
(only the paths that exist in the document shape can be set). -/
def UserDoc.applyOp (d : UserDoc) (p : PatchOp) : UserDoc :=
  if p.op = "set" then
    if p.path = "/role" then { d with role := some p.value }
    else if p.path = "/username" then { d with username := some p.value }
    else if p.path = "/display_name" then { d with display_name := some p.value }
    else if p.path = "/email" then { d with email := some p.value }
    else d
  else d

/-- The state of the Azure Cosmos users container.  Documents live in
`items`; a point read or patch addresses a document by its `id` field
inside the partition given by its `user_id` field (the container's
partition key path).  `readFailures` / `patchFailures` are the
(id, partition key) addresses at which the external store raises some
failure other than `CosmosResourceNotFoundError`. -/
structure CosmosContainer where
  containerId : String
  items : List UserDoc
  readFailures : List (String × String)
  patchFailures : List (String × String)
deriving DecidableEq, Repr

/-- First stored document whose `id` field is `item` and whose
partition-key field `user_id` is `pk`. -/
def findDoc : List UserDoc → String → String → Option UserDoc
  | [], _, _ => none
  | d :: ds, item, pk =>
      if d.id = some item ∧ d.user_id = some pk then some d
      else findDoc ds item pk

/-- Outcome of a Cosmos point read. -/
inductive ReadOutcome where
  | found (d : UserDoc)
  | notFound
  | failure (msg : String)
deriving DecidableEq, Repr

/-- `container.read_item(item=..., partition_key=...)`: a distinguishable
not-found signal when no document sits at the address, some other
failure at the injected-failure addresses, otherwise the document. -/
def CosmosContainer.read_item (st : CosmosContainer) (item pk : String) : ReadOutcome :=
  if (item, pk) ∈ st.readFailures then .failure "read failed"
  else
    match findDoc st.items item pk with
    | some d => .found d
    | none => .notFound

/-- Replace the first document sharing the new document's (id,
partition key) address, or append it when none does. -/
def upsertList (ds : List UserDoc) (nd : UserDoc) : List UserDoc :=
  match ds with
  | [] => [nd]
  | d :: rest =>
      if d.id = nd.id ∧ d.user_id = nd.user_id then nd :: rest
      else d :: upsertList rest nd

/-- `container.upsert_item(doc)`: create-or-replace keyed by the
document's own id and partition-key fields. -/
def CosmosContainer.upsert_item (st : CosmosContainer) (nd : UserDoc) : CosmosContainer :=
  { st with items := upsertList st.items nd }

/-- `container.query_items` with the query of `get_user_by_username`:
the documents whose `username` field equals the bound parameter and
whose `type` field is `"user"`, in collection order. -/
def CosmosContainer.queryByUsername (st : CosmosContainer) (username : String) : List UserDoc :=
  st.items.filter (fun d => d.username = some username ∧ d.type = some "user")

/-- Apply the patch operations to the first document at the given
address, leaving every other document unchanged. -/
def patchFirst (ds : List UserDoc) (item pk : String) (ops : List PatchOp) : List UserDoc :=
  match ds with
  | [] => []
  | d :: rest =>
      if d.id = some item ∧ d.user_id = some pk then
        (ops.foldl UserDoc.applyOp d) :: rest
      else d :: patchFirst rest item pk ops

/-- `container.patch_item(item=..., partition_key=..., patch_operations=...)`:
fails on the injected-failure addresses and (with the store's not-found
error) on a missing document, otherwise patches it in place. -/
def CosmosContainer.patch_item (st : CosmosContainer) (item pk : String)
    (ops : List PatchOp) : Except String CosmosContainer :=
  if (item, pk) ∈ st.patchFailures then .error "patch failed"
  else
    match findDoc st.items item pk with
    | none => .error "CosmosResourceNotFoundError"
    | some _ => .ok { st with items := patchFirst st.items item pk ops }

/-! ## UserVerifier (`user_verifier.py`)

Each method is a function of the container state it holds.  Read-only
methods return their result and leave the state untouched by
construction; `create_user` and `get_or_create_user` also return the
updated container; a Python exception that escapes a method is an
`Except.error` carrying its message. -/

namespace UserVerifier

/-- `UserVerifier.__init__(user_container)`: raises `ValueError` on a
falsy container (`None`), otherwise stores the container unchanged.
The only falsy value of the optional container argument is `None`,
since a `ContainerProxy` object is always truthy. -/
def init : Option CosmosContainer → Except String CosmosContainer
  | none => .error "user_container is required"
  | some c => .ok c

/-- `UserVerifier.get_user(user_id)`: point read at
`(f"user_\x7buser_id\x7d", user_id)`; `CosmosResourceNotFoundError`
becomes `None`; any other store failure is re-raised as a generic
`Exception` with a wrapped message. -/
def get_user (user_id : String) (st : CosmosContainer) : Except String (Option User) :=
  match st.read_item ("user_" ++ user_id) user_id with
  | .found d => .ok (some (User.from_dict d))
  | .notFound => .ok none
  | .failure msg => .error ("Error getting user: " ++ msg)

/-- `UserVerifier.verify_user_exists(user_id)`: wraps `get_user`,
collapsing any exception to `False`. -/
def verify_user_exists (user_id : String) (st : CosmosContainer) : Bool :=
  match get_user user_id st with
  | .ok u => u.isSome
  | .error _ => false

/-- `UserVerifier.get_user_by_email(email)`: delegates to `get_user`. -/
def get_user_by_email (email : String) (st : CosmosContainer) : Except String (Option User) :=
  get_user email st

/-- `UserVerifier.get_user_by_username(username)`: the filtered
cross-partition query on `c.username = @username AND c.type = 'user'`,
returning the first result or `None`. -/
def get_user_by_username (username : String) (st : CosmosContainer) : Option User :=
  match st.queryByUsername username with
  | [] => none
  | d :: _ => some (User.from_dict d)

/-- `UserVerifier.create_user(email, username=None, role=None,
display_name=None)`: builds a `User` with defaults, upserts its dict,
returns the constructed object and the updated container. -/
def create_user (email : String) (username role display_name : Option String)
    (st : CosmosContainer) : User × CosmosContainer :=
  let user := User.init email email username role display_name true [] none none
  (user, st.upsert_item user.to_dict)

/-- `UserVerifier.get_or_create_user(email, username=None, role=None,
display_name=None)`: `get_user_by_email`; a truthy result (any `User`
object) is returned as is, a miss delegates to `create_user`, and an
exception from the lookup propagates. -/
def get_or_create_user (email : String) (username role display_name : Option String)
    (st : CosmosContainer) : Except String (User × CosmosContainer) :=
  match get_user_by_email email st with
  | .error e => .error e
  | .ok (some u) => .ok (u, st)
  | .ok none => .ok (create_user email username role display_name st)

/-- `UserVerifier.verify_user_role(user_id, required_roles)`: lookup
then membership test; an exception from `get_user` propagates. -/
def verify_user_role (user_id : String) (required_roles : List String)
    (st : CosmosContainer) : Except String Bool :=
  match get_user user_id st with
  | .error e => .error e
  | .ok none => .ok false
  | .ok (some u) => .ok (u.role ∈ required_roles)

/-- `UserVerifier.update_user_role(user_id, new_role)`: patches only
`/role` via a single `set` operation, returning `True` on success and
`False` on any exception (the container is then left as it was). -/
def update_user_role (user_id new_role : String) (st : CosmosContainer) :
    Bool × CosmosContainer :=
  match st.patch_item ("user_" ++ user_id) user_id [⟨"set", "/role", new_role⟩] with
  | .ok st' => (true, st')
  | .error _ => (false, st)

end UserVerifier

/-! ## Request adapters (`auth_decorators.py`)

Request headers are a map from header name to optional value.  Each
adapter returns its outcome, the container state after the call, and
the number of verifier store calls it performed (`get_user` and
`create_user` invocations), so that "no store call happens" is a
provable statement. -/

/-- The identity-extraction chain of the Flask `require_auth` wrapper:
the configured header; when falsy, `x-user-id` or `Authorization`
(Python `or`), with a `"Bearer "` prefix stripped from the result when
it is truthy and carries one. -/
def flask_extract_identity (header_name : String)
    (headers : String → Option String) : Option String :=
  let a := headers header_name
  if pyTruthy a then a
  else
    let alt := pyOr (headers "x-user-id") (headers "Authorization")
    if pyTruthy alt ∧ pyStartsWith (alt.getD "") "Bearer " then
      some (pyDrop 7 (alt.getD ""))
    else alt

/-- The identity extraction of the FastAPI `_get_current_user`
dependency: `user_header or user_id_header`. -/
def fastapi_extract_identity (user_header user_id_header : Option String) :
    Option String :=
  pyOr user_header user_id_header

/-- An optional identity collapsed to `none` when falsy (both adapters
test `if not user_identifier:` right after extraction). -/
def normalizeIdent (x : Option String) : Option String :=
  if pyTruthy x then x else none

/-- What the Flask `require_auth` wrapper does with a request. -/
inductive FlaskOutcome where
  | unauthorized (msg : String)
  | forbidden (msg : String)
  | handled (u : User)
  | raised (msg : String)
deriving DecidableEq, Repr

/-- Python truthiness of the optional `required_roles` list: falsy when
`None` or empty. -/
def rolesTruthy : Option (List String) → Bool
  | none => false
  | some [] => false
  | some (_ :: _) => true

/-- The role-check-then-attach tail shared by the Flask wrapper's
found and auto-created paths: 403 when a truthy `required_roles` list
excludes the user's role, otherwise the handler runs with the user
attached to the request context. -/
def flask_role_step (required_roles : Option (List String)) (u : User)
    (st : CosmosContainer) (calls : Nat) : FlaskOutcome × CosmosContainer × Nat :=
  if rolesTruthy required_roles ∧ u.role ∉ (required_roles.getD []) then
    (.forbidden "Forbidden - Insufficient permissions", st, calls)
  else
    (.handled u, st, calls)

/-- The Flask `require_auth(verifier, required_roles, header_name,
auto_create)` wrapper body, per request. -/
def require_auth_wrapper (required_roles : Option (List String))
    (header_name : String) (auto_create : Bool)
    (headers : String → Option String) (st : CosmosContainer) :
    FlaskOutcome × CosmosContainer × Nat :=
  let ident := flask_extract_identity header_name headers
  if ¬ pyTruthy ident then
    (.unauthorized "Unauthorized - Missing user identifier", st, 0)
  else
    let uid := ident.getD ""
    match UserVerifier.get_user uid st with
    | .error e => (.raised e, st, 1)
    | .ok (some u) => flask_role_step required_roles u st 1
    | .ok none =>
        if auto_create then
          let (u, st') := UserVerifier.create_user uid none none (some uid) st
          flask_role_step required_roles u st' 2
        else
          (.unauthorized "Unauthorized - User not found", st, 1)

/-- What the FastAPI `_get_current_user` dependency does with a
request: a structured `HTTPException` (status, detail, whether the
`WWW-Authenticate: Bearer` header is attached), a re-raised store
exception, or the resolved user. -/
inductive FastApiOutcome where
  | httpError (status : Nat) (detail : String) (wwwAuthenticateBearer : Bool)
  | raised (msg : String)
  | okUser (u : User)
deriving DecidableEq, Repr

/-- The FastAPI `get_current_user_fastapi(verifier, header_name,
auto_create)` dependency body: `user_header` is the value of the
configured header, `user_id_header` the value of `x-user-id`. -/
def get_current_user_fastapi (auto_create : Bool)
    (user_header user_id_header : Option String) (st : CosmosContainer) :
    FastApiOutcome × CosmosContainer × Nat :=
  let ident := fastapi_extract_identity user_header user_id_header
  if ¬ pyTruthy ident then
    (.httpError 401 "Unauthorized - Missing user identifier" true, st, 0)
  else
    let uid := ident.getD ""
    match UserVerifier.get_user uid st with
    | .error e => (.raised e, st, 1)
    | .ok (some u) => (.okUser u, st, 1)
    | .ok none =>
        if auto_create then
          let (u, st') := UserVerifier.create_user uid none none (some uid) st
          (.okUser u, st', 2)
        else
          (.httpError 401 "Unauthorized - User not found" true, st, 1)

/-- The FastAPI `require_role_fastapi` dependency: composes the base
dependency with a role membership test, raising 403 (without the
`WWW-Authenticate` header) when the resolved user's role is not in
`required_roles`. -/
def require_role_fastapi (required_roles : List String) (auto_create : Bool)
    (user_header user_id_header : Option String) (st : CosmosContainer) :
    FastApiOutcome × CosmosContainer × Nat :=
  match get_current_user_fastapi auto_create user_header user_id_header st with
  | (.okUser u, st', n) =>
      if u.role ∉ required_roles then
        (.httpError 403 "Forbidden - Insufficient permissions" false, st', n)
      else (.okUser u, st', n)
  | other => other

/-! ## Concrete container states used in witnesses and counterexamples -/

/-- A stored document whose `username` field happens to hold an
email-shaped string, under a different document id. -/
def demoDoc : UserDoc :=
  { id := some "user_bob"
    type := some "user"
    user_id := some "bob"
    email := some "bob@x.com"
    username := some "a@b.com"
    role := some "admin"
    display_name := some "Bob"
    is_active := some true
    agents := some []
    created_at := none
    updated_at := none }

/-- A container holding only `demoDoc`, with no injected failures. -/
def demoStore : CosmosContainer :=
  { containerId := "users", items := [demoDoc], readFailures := [], patchFailures := [] }

/-- An empty container with no injected failures. -/
def emptyStore : CosmosContainer :=
  { containerId := "users", items := [], readFailures := [], patchFailures := [] }

/-- An empty container whose store fails (other than not-found) on
reads and patches at the address of user `"x"`. -/
def failStore : CosmosContainer :=
  { containerId := "users", items := [],
    readFailures := [("user_x", "x")], patchFailures := [("user_x", "x")] }

/-- A request carrying only a bearer-shaped authorization header. -/
def bearerOnlyHeaders : String → Option String :=
  fun h => if h = "Authorization" then some "Bearer tok" else none

/-! ## Helper lemmas -/

theorem strOrElse_eq_empty_iff (x : Option String) (d : String) :
    strOrElse x d = "" ↔ ((x = none ∨ x = some "") ∧ d = "") := by
  cases x with
  | none => simp [strOrElse]
  | some s => by_cases hs : s = "" <;> simp [strOrElse, hs]

theorem strOrElse_ne_empty (x : Option String) (d : String) (hd : d ≠ "") :
    strOrElse x d ≠ "" := by
  intro h
  exact hd ((strOrElse_eq_empty_iff x d).mp h).2

theorem strOrElse_some_of_ne (s d : String) (hs : s ≠ "") :
    strOrElse (some s) d = s := by
  simp [strOrElse, hs]

theorem strOrElse_some_empty (d : String) : strOrElse (some "") d = d := by
  simp [strOrElse]

theorem strOrElse_none (d : String) : strOrElse none d = d := rfl

theorem pyTruthy_none : pyTruthy none = false := rfl

theorem pyTruthy_some_empty : pyTruthy (some "") = false := rfl

theorem pyTruthy_some_of_ne (s : String) (hs : s ≠ "") : pyTruthy (some s) = true := by
  simp [pyTruthy, hs]

theorem from_dict_role_ne_empty (d : UserDoc) : (User.from_dict d).role ≠ "" :=
  strOrElse_ne_empty d.role UserRole.user.value (by decide)

/-- Round-trip core: mapping a reconstructed user through `to_dict`
then `from_dict` preserves its role, display name and active flag. -/
theorem from_dict_roundtrip (d : UserDoc) :
    (User.from_dict (User.from_dict d).to_dict).role = (User.from_dict d).role ∧
    (User.from_dict (User.from_dict d).to_dict).display_name = (User.from_dict d).display_name ∧
    (User.from_dict (User.from_dict d).to_dict).is_active = (User.from_dict d).is_active := by
  refine ⟨?_, ?_, rfl⟩
  · exact strOrElse_some_of_ne _ _ (from_dict_role_ne_empty d)
  · show strOrElse (some (User.from_dict d).display_name)
      (strOrElse (some (User.from_dict d).username) (User.from_dict d).email) =
        (User.from_dict d).display_name
    by_cases hdn : (User.from_dict d).display_name = ""
    · have hchain : strOrElse d.display_name (strOrElse d.username (d.email.getD "")) = "" := hdn
      have h1 := (strOrElse_eq_empty_iff _ _).mp hchain
      have h2 := (strOrElse_eq_empty_iff _ _).mp h1.2
      have hem : d.email.getD "" = "" := h2.2
      have huser : (User.from_dict d).username = "" := by
        show strOrElse d.username (localPart (d.email.getD "")) = ""
        rw [hem]
        rcases h2.1 with h | h <;> simp [h, strOrElse, localPart, charsBeforeAt]
      have hemail : (User.from_dict d).email = "" := hem
      rw [hdn, huser, hemail, strOrElse_some_empty, strOrElse_some_empty]
    · exact strOrElse_some_of_ne _ _ hdn

/-! ## Claims -/

/-- C3: for every valid identity string, the user record returned by
`get_user`, when mapped to the storage representation (`to_dict`) and
back (`from_dict`), yields a record with the same role, the same
display name, and the same active flag as the original. -/
theorem claim_C3 (uid : String) (st : CosmosContainer) (u : User)
    (h : UserVerifier.get_user uid st = .ok (some u)) :
    (User.from_dict u.to_dict).role = u.role ∧
    (User.from_dict u.to_dict).display_name = u.display_name ∧
    (User.from_dict u.to_dict).is_active = u.is_active := by
  obtain ⟨d, rfl⟩ : ∃ d, u = User.from_dict d := by
    unfold UserVerifier.get_user at h
    split at h
    · simp at h
      exact ⟨_, h.symm⟩
    · simp at h
    · simp at h
  exact from_dict_roundtrip d

theorem claim_C3_witness :
    (User.from_dict (User.from_dict demoDoc).to_dict).role = (User.from_dict demoDoc).role ∧
    (User.from_dict (User.from_dict demoDoc).to_dict).display_name =
      (User.from_dict demoDoc).display_name ∧
    (User.from_dict (User.from_dict demoDoc).to_dict).is_active =
      (User.from_dict demoDoc).is_active :=
  claim_C3 "bob" demoStore (User.from_dict demoDoc) (by decide)

/-- C9: default substitution applies to falsy present values, not only
to missing keys: a stored record whose `role` or `username` field is
present but equal to `""` is reconstructed by `from_dict` exactly as if
the field were absent, yielding the base role `"user"` for `role` and
the email local part for `username`. -/
theorem claim_C9 (d : UserDoc) :
    User.from_dict { d with role := some "" } = User.from_dict { d with role := none } ∧
    (User.from_dict { d with role := some "" }).role = UserRole.user.value ∧
    User.from_dict { d with username := some "" } =
      User.from_dict { d with username := none } ∧
    (User.from_dict { d with username := some "" }).username =
      localPart (d.email.getD "") := by
  refine ⟨?_, rfl, ?_, rfl⟩ <;>
    simp [User.from_dict, User.init, strOrElse_some_empty, strOrElse_none]

/-- C6: `get_user` returns the explicit not-found result (`None`)
exactly when the store signals not-found at the derived address (no
injected failure there and no stored document), and raises a generic
operational error exactly when the store fails in any other way. -/
theorem claim_C6 (uid : String) (st : CosmosContainer) :
    (UserVerifier.get_user uid st = .ok none ↔
      (("user_" ++ uid, uid) ∉ st.readFailures ∧
        findDoc st.items ("user_" ++ uid) uid = none)) ∧
    ((∃ e, UserVerifier.get_user uid st = .error e) ↔
      ("user_" ++ uid, uid) ∈ st.readFailures) := by
  by_cases hf : ("user_" ++ uid, uid) ∈ st.readFailures
  · simp [UserVerifier.get_user, CosmosContainer.read_item, hf]
  · cases hfind : findDoc st.items ("user_" ++ uid) uid <;>
      simp [UserVerifier.get_user, CosmosContainer.read_item, hf, hfind]

theorem claim_C6_witness :
    (∃ e, UserVerifier.get_user "x" failStore = .error e) ∧
    UserVerifier.get_user "x" emptyStore = .ok none :=
  ⟨(claim_C6 "x" failStore).2.mpr (by decide),
   (claim_C6 "x" emptyStore).1.mpr (by decide)⟩

/-- C7: `update_user_role` returns a boolean and never raises: it
returns `false` exactly when the patch fails (injected store failure or
no document at the address), leaving the container unchanged, and on
success it returns `true` with the container patched by the single
`set /role` operation, which touches only the `role` field. -/
theorem claim_C7 (uid r : String) (st : CosmosContainer) :
    ((UserVerifier.update_user_role uid r st).1 = false ↔
      (("user_" ++ uid, uid) ∈ st.patchFailures ∨
        findDoc st.items ("user_" ++ uid) uid = none)) ∧
    ((UserVerifier.update_user_role uid r st).1 = false →
      (UserVerifier.update_user_role uid r st).2 = st) ∧
    ((UserVerifier.update_user_role uid r st).1 = true →
      (UserVerifier.update_user_role uid r st).2 =
        { st with items := patchFirst st.items ("user_" ++ uid) uid [⟨"set", "/role", r⟩] }) ∧
    (∀ d : UserDoc, d.applyOp ⟨"set", "/role", r⟩ = { d with role := some r }) := by
  refine ⟨?_, ?_, ?_, fun d => rfl⟩ <;>
  · by_cases hp : ("user_" ++ uid, uid) ∈ st.patchFailures
    · simp [UserVerifier.update_user_role, CosmosContainer.patch_item, hp]
    · cases hfind : findDoc st.items ("user_" ++ uid) uid <;>
        simp [UserVerifier.update_user_role, CosmosContainer.patch_item, hp, hfind]

theorem claim_C7_witness :
    (UserVerifier.update_user_role "x" "admin" emptyStore).1 = false ∧
    (UserVerifier.update_user_role "x" "admin" emptyStore).2 = emptyStore :=
  ⟨(claim_C7 "x" "admin" emptyStore).1.mpr (by decide),
   (claim_C7 "x" "admin" emptyStore).2.1
     ((claim_C7 "x" "admin" emptyStore).1.mpr (by decide))⟩

/-- A point read right after an upsert finds the upserted document at
its own (id, partition key) address. -/
theorem findDoc_upsertList (ds : List UserDoc) (nd : UserDoc) (item pk : String)
    (h1 : nd.id = some item) (h2 : nd.user_id = some pk) :
    findDoc (upsertList ds nd) item pk = some nd := by
  induction ds with
  | nil => simp [upsertList, findDoc, h1, h2]
  | cons d rest ih =>
      by_cases hk : d.id = nd.id ∧ d.user_id = nd.user_id
      · simp [upsertList, hk, findDoc, h1, h2]
      · have hd : ¬ (d.id = some item ∧ d.user_id = some pk) := fun hcon =>
          hk ⟨hcon.1.trans h1.symm, hcon.2.trans h2.symm⟩
        simp [upsertList, hk, findDoc, hd, ih]

/-- C1 (amended): `get_or_create_user` first performs the point lookup
by the derived key (`get_user_by_email`, i.e. `get_user`), returns a
found user with the container untouched, calls `create_user` exactly
when that point lookup returns not-found, and propagates its errors. -/
theorem claim_C1_amended (email : String) (username role display_name : Option String)
    (st : CosmosContainer) :
    (∀ u, UserVerifier.get_user email st = .ok (some u) →
      UserVerifier.get_or_create_user email username role display_name st = .ok (u, st)) ∧
    (UserVerifier.get_user email st = .ok none →
      UserVerifier.get_or_create_user email username role display_name st =
        .ok (UserVerifier.create_user email username role display_name st)) ∧
    (∀ e, UserVerifier.get_user email st = .error e →
      UserVerifier.get_or_create_user email username role display_name st = .error e) := by
  refine ⟨fun u h => ?_, fun h => ?_, fun e h => ?_⟩ <;>
    simp [UserVerifier.get_or_create_user, UserVerifier.get_user_by_email, h]

theorem claim_C1_amended_witness :
    UserVerifier.get_or_create_user "a@b.com" none none none demoStore =
      .ok (UserVerifier.create_user "a@b.com" none none none demoStore) :=
  (claim_C1_amended "a@b.com" none none none demoStore).2.1 (by decide)

/-- C1 as stated is false: in `demoStore` the alternate-key lookup (the
filtered scan on the `username` field and the `type` discriminator)
does find a user for `"a@b.com"`, yet `get_or_create_user "a@b.com"`
still creates: it writes a new document into the container. -/
theorem claim_C1_counterexample :
    UserVerifier.get_user_by_username "a@b.com" demoStore =
      some (User.from_dict demoDoc) ∧
    UserVerifier.get_or_create_user "a@b.com" none none none demoStore =
      .ok (UserVerifier.create_user "a@b.com" none none none demoStore) ∧
    (UserVerifier.create_user "a@b.com" none none none demoStore).2 ≠ demoStore ∧
    (UserVerifier.create_user "a@b.com" none none none demoStore).1 ≠
      User.from_dict demoDoc := by
  refine ⟨by decide, by decide, by decide, by decide⟩

/-- A successful point read returns a document carrying exactly the id
and partition-key fields it was addressed by. -/
theorem findDoc_spec (ds : List UserDoc) (item pk : String) (d : UserDoc)
    (h : findDoc ds item pk = some d) : d.id = some item ∧ d.user_id = some pk := by
  induction ds with
  | nil => simp [findDoc] at h
  | cons e rest ih =>
      by_cases hk : e.id = some item ∧ e.user_id = some pk
      · simp [findDoc, hk] at h
        subst h
        exact hk
      · simp [findDoc, hk] at h
        exact ih h

/-- C4: after `create_user "a@b.com"` with all optional arguments
absent, `get_user "a@b.com"` returns a record whose username is `"a"`
(the email local part), whose role equals the base role, and whose
active flag is true. -/
theorem claim_C4 (st : CosmosContainer)
    (hf : ("user_a@b.com", "a@b.com") ∉ st.readFailures) :
    ∃ u : User,
      UserVerifier.get_user "a@b.com"
        (UserVerifier.create_user "a@b.com" none none none st).2 = .ok (some u) ∧
      u.username = "a" ∧ u.role = UserRole.user.value ∧ u.is_active = true := by
  refine ⟨User.from_dict
      (User.init "a@b.com" "a@b.com" none none none true [] none none).to_dict,
    ?_, by decide, by decide, by decide⟩
  have hfind : findDoc
      (upsertList st.items
        (User.init "a@b.com" "a@b.com" none none none true [] none none).to_dict)
      "user_a@b.com" "a@b.com" =
      some (User.init "a@b.com" "a@b.com" none none none true [] none none).to_dict :=
    findDoc_upsertList st.items _ "user_a@b.com" "a@b.com" rfl rfl
  have hkey : ("user_" ++ "a@b.com" : String) = "user_a@b.com" := rfl
  simp [UserVerifier.get_user, UserVerifier.create_user, CosmosContainer.upsert_item,
        CosmosContainer.read_item, hkey, hf, hfind]

theorem claim_C4_witness :
    ∃ u : User,
      UserVerifier.get_user "a@b.com"
        (UserVerifier.create_user "a@b.com" none none none emptyStore).2 = .ok (some u) ∧
      u.username = "a" ∧ u.role = UserRole.user.value ∧ u.is_active = true :=
  claim_C4 emptyStore (by decide)

/-- C5: two successive `get_or_create_user` calls with the same email
(on a store that does not fail at the derived address) both succeed —
in particular the second does not raise although the user then exists —
and return records with the identical derived identity key
`"user_" ++ email`. -/
theorem claim_C5 (email : String) (st : CosmosContainer)
    (hf : ("user_" ++ email, email) ∉ st.readFailures) :
    ∃ u1 st1 u2 st2,
      UserVerifier.get_or_create_user email none none none st = .ok (u1, st1) ∧
      UserVerifier.get_or_create_user email none none none st1 = .ok (u2, st2) ∧
      u1.id = u2.id ∧ u1.id = "user_" ++ email := by
  cases hd : findDoc st.items ("user_" ++ email) email with
  | some d =>
      have hget : UserVerifier.get_user email st = .ok (some (User.from_dict d)) := by
        simp [UserVerifier.get_user, CosmosContainer.read_item, hf, hd]
      have h1 : UserVerifier.get_or_create_user email none none none st =
          .ok (User.from_dict d, st) := by
        simp [UserVerifier.get_or_create_user, UserVerifier.get_user_by_email, hget]
      have hid : (User.from_dict d).id = "user_" ++ email := by
        have := (findDoc_spec st.items ("user_" ++ email) email d hd).2
        show "user_" ++ d.user_id.getD "" = "user_" ++ email
        rw [this]
        rfl
      exact ⟨User.from_dict d, st, User.from_dict d, st, h1, h1, rfl, hid⟩
  | none =>
      have hget : UserVerifier.get_user email st = .ok none := by
        simp [UserVerifier.get_user, CosmosContainer.read_item, hf, hd]
      have h1 : UserVerifier.get_or_create_user email none none none st =
          .ok (User.init email email none none none true [] none none,
               (UserVerifier.create_user email none none none st).2) := by
        simp [UserVerifier.get_or_create_user, UserVerifier.get_user_by_email, hget,
              UserVerifier.create_user]
      have hfind : findDoc
          (upsertList st.items
            (User.init email email none none none true [] none none).to_dict)
          ("user_" ++ email) email =
          some (User.init email email none none none true [] none none).to_dict :=
        findDoc_upsertList st.items _ ("user_" ++ email) email rfl rfl
      have hget2 : UserVerifier.get_user email
          (UserVerifier.create_user email none none none st).2 =
          .ok (some (User.from_dict
            (User.init email email none none none true [] none none).to_dict)) := by
        simp [UserVerifier.get_user, UserVerifier.create_user,
              CosmosContainer.upsert_item, CosmosContainer.read_item, hf, hfind]
      have h2 : UserVerifier.get_or_create_user email none none none
          (UserVerifier.create_user email none none none st).2 =
          .ok (User.from_dict
            (User.init email email none none none true [] none none).to_dict,
            (UserVerifier.create_user email none none none st).2) := by
        simp [UserVerifier.get_or_create_user, UserVerifier.get_user_by_email, hget2]
      exact ⟨_, _, _, _, h1, h2, rfl, rfl⟩

theorem claim_C5_witness :
    ∃ u1 st1 u2 st2,
      UserVerifier.get_or_create_user "a@b.com" none none none emptyStore = .ok (u1, st1) ∧
      UserVerifier.get_or_create_user "a@b.com" none none none st1 = .ok (u2, st2) ∧
      u1.id = u2.id ∧ u1.id = "user_" ++ "a@b.com" :=
  claim_C5 "a@b.com" emptyStore (by decide)

/-- C2 as stated is false: on a request carrying only an authorization
header, the synchronous (Flask) chain extracts the bearer-stripped
token, while the asynchronous (FastAPI) dependency — which reads only
the primary header and `x-user-id` — extracts nothing. -/
theorem claim_C2_counterexample :
    flask_extract_identity "x-user-email" bearerOnlyHeaders = some "tok" ∧
    fastapi_extract_identity (bearerOnlyHeaders "x-user-email")
      (bearerOnlyHeaders "x-user-id") = none := by
  constructor <;> decide

/-- C2 (amended): the asynchronous adapter extracts the identity from
the primary header, falling back only to the user-id header; it has no
authorization-header fallback and performs no bearer-prefix stripping.
On requests with no authorization header and whose user-id header is
not bearer-prefixed, its extraction agrees (up to truthiness
normalisation, which both adapters apply immediately) with the
synchronous adapter's chain. -/
theorem claim_C2_amended (header_name : String) (headers : String → Option String)
    (hAuth : headers "Authorization" = none)
    (hUid : ∀ s, headers "x-user-id" = some s → pyStartsWith s "Bearer " = false) :
    fastapi_extract_identity (headers header_name) (headers "x-user-id") =
      pyOr (headers header_name) (headers "x-user-id") ∧
    normalizeIdent (fastapi_extract_identity (headers header_name) (headers "x-user-id")) =
      normalizeIdent (flask_extract_identity header_name headers) := by
  refine ⟨rfl, ?_⟩
  by_cases h1 : pyTruthy (headers header_name)
  · simp [fastapi_extract_identity, flask_extract_identity, pyOr, h1]
  · have h1' : pyTruthy (headers header_name) = false := by simpa using h1
    cases h2 : headers "x-user-id" with
    | none =>
        simp [fastapi_extract_identity, flask_extract_identity, pyOr, h1', h2, hAuth,
              pyTruthy_none, normalizeIdent]
    | some s =>
        have hb := hUid s h2
        by_cases hs : s = ""
        · subst hs
          simp [fastapi_extract_identity, flask_extract_identity, pyOr, h1', h2, hAuth,
                pyTruthy_none, pyTruthy_some_empty, normalizeIdent]
        · have hts := pyTruthy_some_of_ne s hs
          simp [fastapi_extract_identity, flask_extract_identity, pyOr, h1', h2, hAuth,
                hts, hb, normalizeIdent]

theorem claim_C2_amended_witness :
    normalizeIdent (fastapi_extract_identity ((fun _ => none) "x-user-email")
        ((fun _ => none) "x-user-id")) =
      normalizeIdent (flask_extract_identity "x-user-email" (fun _ => none)) :=
  (claim_C2_amended "x-user-email" (fun _ => none) rfl
    (fun _ h => Option.noConfusion h)).2

/-- C8: a request carrying none of the recognized identity headers is
rejected by both adapters with a 401-equivalent outcome before any
verifier call: the container is returned unchanged and the count of
store calls for user resolution is zero. -/
theorem claim_C8 (required_roles : Option (List String)) (header_name : String)
    (auto_create : Bool) (headers : String → Option String) (st : CosmosContainer)
    (h1 : headers header_name = none) (h2 : headers "x-user-id" = none)
    (h3 : headers "Authorization" = none) :
    require_auth_wrapper required_roles header_name auto_create headers st =
      (.unauthorized "Unauthorized - Missing user identifier", st, 0) ∧
    get_current_user_fastapi auto_create (headers header_name) (headers "x-user-id") st =
      (.httpError 401 "Unauthorized - Missing user identifier" true, st, 0) := by
  constructor
  · simp [require_auth_wrapper, flask_extract_identity, pyOr, h1, h2, h3, pyTruthy]
  · simp [get_current_user_fastapi, fastapi_extract_identity, pyOr, h1, h2, pyTruthy]

theorem claim_C8_witness :
    require_auth_wrapper none "x-user-email" false (fun _ => none) emptyStore =
      (.unauthorized "Unauthorized - Missing user identifier", emptyStore, 0) ∧
    get_current_user_fastapi false ((fun _ => none) "x-user-email")
        ((fun _ => none) "x-user-id") emptyStore =
      (.httpError 401 "Unauthorized - Missing user identifier" true, emptyStore, 0) :=
  claim_C8 none "x-user-email" false (fun _ => none) emptyStore rfl rfl rfl

/-- C10: constructing a `UserVerifier` on a falsy (absent) container
raises `ValueError`; a successful construction holds exactly the
container it was given; and no operation replaces the held container —
the mutating operations return a container with the same identity (and
the same external failure behaviour), only its stored items changed. -/
theorem claim_C10 :
    UserVerifier.init none = .error "user_container is required" ∧
    (∀ c : CosmosContainer, UserVerifier.init (some c) = .ok c) ∧
    (∀ email username role display_name st,
      (UserVerifier.create_user email username role display_name st).2.containerId =
          st.containerId ∧
      (UserVerifier.create_user email username role display_name st).2.readFailures =
          st.readFailures ∧
      (UserVerifier.create_user email username role display_name st).2.patchFailures =
          st.patchFailures) ∧
    (∀ email username role display_name st u st',
      UserVerifier.get_or_create_user email username role display_name st = .ok (u, st') →
        st'.containerId = st.containerId) ∧
    (∀ uid r st, (UserVerifier.update_user_role uid r st).2.containerId = st.containerId) := by
  refine ⟨rfl, fun c => rfl, fun email un ro dn st => ⟨rfl, rfl, rfl⟩, ?_, ?_⟩
  · intro email un ro dn st u st' h
    unfold UserVerifier.get_or_create_user at h
    split at h
    · cases h
    · simp only [Except.ok.injEq, Prod.mk.injEq] at h
      rw [← h.2]
    · simp only [UserVerifier.create_user, Except.ok.injEq, Prod.mk.injEq] at h
      rw [← h.2]
      rfl
  · intro uid r st
    unfold UserVerifier.update_user_role CosmosContainer.patch_item
    by_cases hp : ("user_" ++ uid, uid) ∈ st.patchFailures
    · simp [hp]
    · cases hfind : findDoc st.items ("user_" ++ uid) uid <;> simp [hp, hfind]

theorem claim_C10_witness :
    UserVerifier.init (some emptyStore) = .ok emptyStore ∧
    (UserVerifier.create_user "a@b.com" none none none emptyStore).2.containerId =
      emptyStore.containerId ∧
    (UserVerifier.create_user "a@b.com" none none none emptyStore).2.containerId =
      emptyStore.containerId ∧
    (UserVerifier.update_user_role "x" "admin" emptyStore).2.containerId =
      emptyStore.containerId :=
  ⟨claim_C10.2.1 emptyStore,
   (claim_C10.2.2.1 "a@b.com" none none none emptyStore).1,
   claim_C10.2.2.2.1 "a@b.com" none none none emptyStore
     (UserVerifier.create_user "a@b.com" none none none emptyStore).1
     (UserVerifier.create_user "a@b.com" none none none emptyStore).2 (by decide),
   claim_C10.2.2.2.2 "x" "admin" emptyStore⟩

end CosmosAuth
